import Mathlib

/-!
Shallow embedding of `src/main.py` (FastAPI book-catalog CRUD service).

The store is a Python dict `db_livros : Dict[int, Livro]` plus a counter
`ultimo_id_livro : int`.  Python dicts preserve insertion order: assigning
to an existing key keeps its position, assigning a fresh key appends, and
`del` removes the entry.  We model the dict as an association list with
exactly those operations.

A stored `Livro` is a pydantic model with fields `id : int`,
`titulo : str`, `autor : str`, `ano_publicacao : Optional[int]`,
`genero : Optional[str]`.  Because `atualizar_livro` writes fields with
`setattr` and pydantic v2 does not validate assignments by default, the
stored object can end up holding `None` in `titulo`/`autor`; the embedding
therefore gives every stored descriptive field type `Option _`, with
`none` standing for Python `None`.

`LivroUpdate` request fields are tri-state, matching what
`model_dump(exclude_unset=True)` sees: a field can be omitted from the
request body (`none`), explicitly set to JSON `null` (`some none`), or
set to a value (`some (some v)`).  `exclude_unset=True` drops only the
omitted fields; explicit nulls are kept and written.
-/

/-- A stored book record (pydantic model `Livro`).  Fields other than `id`
are `Option`-typed because `setattr` on the stored object can place Python
`None` into any of them (pydantic v2 does not validate assignment by
default). -/
structure Livro where
  id : Int
  titulo : Option String
  autor : Option String
  ano_publicacao : Option Int
  genero : Option String
deriving DecidableEq, Repr

/-- A validated creation body (`LivroCreate`): `titulo` and `autor` are
required (`Field(...)`), the other two optional with default `None`. -/
structure LivroCreate where
  titulo : String
  autor : String
  ano_publicacao : Option Int
  genero : Option String
deriving DecidableEq, Repr

/-- A partial-update body (`LivroUpdate`).  Each field is tri-state:
`none` = omitted from the request (unset), `some none` = explicitly JSON
`null`, `some (some v)` = explicitly set to `v`. -/
structure LivroUpdate where
  titulo : Option (Option String)
  autor : Option (Option String)
  ano_publicacao : Option (Option Int)
  genero : Option (Option String)
deriving DecidableEq, Repr

/-- A raw creation request body, before pydantic validation: any field may
be missing (or JSON `null`, which `titulo : str` / `autor : str` also
reject). -/
structure RawCreateBody where
  titulo : Option String
  autor : Option String
  ano_publicacao : Option Int
  genero : Option String
deriving DecidableEq, Repr

/-- Errors surfaced by the handlers: `HTTPException(404)` and pydantic
request-validation failure (422). -/
inductive HTTPError where
  | notFound (detail : String)
  | validationError (detail : String)
deriving DecidableEq, Repr

/-- Python dict lookup `db.get(k)` on the insertion-ordered association
list. -/
def dictGet : List (Int × Livro) → Int → Option Livro
  | [], _ => none
  | p :: ps, k => if p.1 = k then some p.2 else dictGet ps k

/-- Python dict assignment `db[k] = v`: replaces in place when the key is
present, appends otherwise. -/
def dictSet : List (Int × Livro) → Int → Livro → List (Int × Livro)
  | [], k, v => [(k, v)]
  | p :: ps, k, v => if p.1 = k then (k, v) :: ps else p :: dictSet ps k v

/-- Python `del db[k]`: removes the entry for `k`. -/
def dictDel : List (Int × Livro) → Int → List (Int × Livro)
  | [], _ => []
  | p :: ps, k => if p.1 = k then ps else p :: dictDel ps k

/-- The service state: `db_livros` and `ultimo_id_livro`. -/
structure AppState where
  db_livros : List (Int × Livro)
  ultimo_id_livro : Int
deriving DecidableEq, Repr

/-- Process start: empty dict, counter `0`. -/
def initialState : AppState := ⟨[], 0⟩

/-- `POST /livros` handler body (`criar_livro`), on an already-validated
`LivroCreate`: increment the counter, build a `Livro` from the body plus
the new id, store it and return it. -/
def criar_livro (livro : LivroCreate) (s : AppState) : Livro × AppState :=
  let novoId := s.ultimo_id_livro + 1
  let novo_livro : Livro :=
    ⟨novoId, some livro.titulo, some livro.autor, livro.ano_publicacao, livro.genero⟩
  (novo_livro, ⟨dictSet s.db_livros novoId novo_livro, novoId⟩)

/-- Pydantic validation of a raw creation body against `LivroCreate`:
`titulo` and `autor` must be present (as text); no length constraint. -/
def validateCreate (b : RawCreateBody) : Except HTTPError LivroCreate :=
  match b.titulo, b.autor with
  | some t, some a => .ok ⟨t, a, b.ano_publicacao, b.genero⟩
  | none, _ => .error (.validationError "field required: titulo")
  | some _, none => .error (.validationError "field required: autor")

/-- `POST /livros` including the framework validation step: on a malformed
body the handler never runs and the state is untouched. -/
def handleCreate (b : RawCreateBody) (s : AppState) :
    Except HTTPError Livro × AppState :=
  match validateCreate b with
  | .error e => (.error e, s)
  | .ok c =>
    let r := criar_livro c s
    (.ok r.1, r.2)

/-- `GET /livros` (`listar_livros`): coerce `skip < 0` to `0` and
`limit <= 0` to `10`, then return the slice
`list(db.values())[skip : skip + limit]`. -/
def listar_livros (s : AppState) (skip limit : Int) : List Livro :=
  let livros_lista := s.db_livros.map Prod.snd
  let skip2 := if skip < 0 then 0 else skip
  let limit2 := if limit ≤ 0 then 10 else limit
  (livros_lista.drop skip2.toNat).take limit2.toNat

/-- `GET /livros/{livro_id}` (`obter_livro`): 404 when absent; never
mutates, so the post-state is returned unchanged. -/
def obter_livro (livro_id : Int) (s : AppState) :
    Except HTTPError Livro × AppState :=
  match dictGet s.db_livros livro_id with
  | none => (.error (.notFound s!"Livro com id {livro_id} não encontrado"), s)
  | some livro => (.ok livro, s)

/-- The `setattr` loop of `atualizar_livro` over
`model_dump(exclude_unset=True)`: every field present in the update body
(including one explicitly set to `null`) overwrites the stored field;
omitted fields are untouched.  `id` is never in the body. -/
def applyUpdate (u : LivroUpdate) (l : Livro) : Livro :=
  { l with
    titulo := u.titulo.getD l.titulo
    autor := u.autor.getD l.autor
    ano_publicacao := u.ano_publicacao.getD l.ano_publicacao
    genero := u.genero.getD l.genero }

/-- `PUT /livros/{livro_id}` (`atualizar_livro`): 404 when absent,
otherwise overwrite the set fields and re-store under the same key. -/
def atualizar_livro (livro_id : Int) (livro_update : LivroUpdate)
    (s : AppState) : Except HTTPError Livro × AppState :=
  match dictGet s.db_livros livro_id with
  | none => (.error (.notFound s!"Livro com id {livro_id} não encontrado"), s)
  | some livro_existente =>
    let atualizado := applyUpdate livro_update livro_existente
    (.ok atualizado,
      ⟨dictSet s.db_livros livro_id atualizado, s.ultimo_id_livro⟩)

/-- `DELETE /livros/{livro_id}` (`deletar_livro`): 404 when absent,
otherwise remove the entry and return a confirmation message. -/
def deletar_livro (livro_id : Int) (s : AppState) :
    Except HTTPError String × AppState :=
  match dictGet s.db_livros livro_id with
  | none => (.error (.notFound s!"Livro com id {livro_id} não encontrado"), s)
  | some _ =>
    (.ok s!"Livro com id {livro_id} removido com sucesso",
      ⟨dictDel s.db_livros livro_id, s.ultimo_id_livro⟩)

/-- One mutating API call, for reasoning about operation sequences. -/
inductive Op where
  | create (livro : LivroCreate)
  | update (livro_id : Int) (livro_update : LivroUpdate)
  | del (livro_id : Int)
deriving DecidableEq, Repr

/-- State transition of a single call (result discarded). -/
def runOp (s : AppState) : Op → AppState
  | .create c => (criar_livro c s).2
  | .update i u => (atualizar_livro i u s).2
  | .del i => (deletar_livro i s).2

/-- State after a sequence of calls. -/
def runOps (s : AppState) : List Op → AppState
  | [] => s
  | op :: ops => runOps (runOp s op) ops

/-- The ids returned by the create calls of a sequence, in call order. -/
def createdIds (s : AppState) : List Op → List Int
  | [] => []
  | .create c :: ops => (criar_livro c s).1.id :: createdIds (runOp s (.create c)) ops
  | op :: ops => createdIds (runOp s op) ops

/-- Number of create calls in a sequence. -/
def countCreates : List Op → Nat
  | [] => 0
  | .create _ :: ops => countCreates ops + 1
  | _ :: ops => countCreates ops

/-! ### Association-list (Python dict) lemmas -/

theorem dictGet_dictSet_self (db : List (Int × Livro)) (k : Int) (v : Livro) :
    dictGet (dictSet db k v) k = some v := by
  induction db with
  | nil => simp [dictSet, dictGet]
  | cons p ps ih =>
    by_cases h : p.1 = k
    · simp [dictSet, dictGet, h]
    · simp [dictSet, dictGet, h, ih]

theorem mem_dictSet {db : List (Int × Livro)} {k : Int} {v : Livro}
    {p : Int × Livro} (hp : p ∈ dictSet db k v) : p = (k, v) ∨ p ∈ db := by
  induction db with
  | nil => simpa [dictSet] using hp
  | cons q qs ih =>
    by_cases h : q.1 = k
    · simp only [dictSet, if_pos h, List.mem_cons] at hp
      rcases hp with hp | hp
      · exact Or.inl hp
      · exact Or.inr (List.mem_cons_of_mem q hp)
    · simp only [dictSet, if_neg h, List.mem_cons] at hp
      rcases hp with hp | hp
      · exact Or.inr (by simp [hp])
      · rcases ih hp with hp | hp
        · exact Or.inl hp
        · exact Or.inr (List.mem_cons_of_mem q hp)

theorem mem_of_dictGet_eq_some {db : List (Int × Livro)} {k : Int} {v : Livro}
    (h : dictGet db k = some v) : (k, v) ∈ db := by
  induction db with
  | nil => simp [dictGet] at h
  | cons p ps ih =>
    by_cases hk : p.1 = k
    · simp only [dictGet, if_pos hk, Option.some.injEq] at h
      subst hk; subst h
      simp
    · simp only [dictGet, if_neg hk] at h
      exact List.mem_cons_of_mem p (ih h)

theorem dictGet_eq_none_of_not_mem {db : List (Int × Livro)} {k : Int}
    (h : k ∉ db.map Prod.fst) : dictGet db k = none := by
  induction db with
  | nil => simp [dictGet]
  | cons p ps ih =>
    simp only [List.map_cons, List.mem_cons, not_or] at h
    have hk : ¬p.1 = k := fun hk => h.1 hk.symm
    simp [dictGet, hk, ih h.2]

theorem map_fst_dictSet_of_mem {db : List (Int × Livro)} {k : Int} (v : Livro)
    (h : k ∈ db.map Prod.fst) :
    (dictSet db k v).map Prod.fst = db.map Prod.fst := by
  induction db with
  | nil => simp at h
  | cons p ps ih =>
    by_cases hk : p.1 = k
    · simp [dictSet, hk]
    · simp only [List.map_cons, List.mem_cons] at h
      rcases h with h | h
      · exact absurd h.symm hk
      · simp [dictSet, hk, ih h]

theorem map_fst_dictSet_of_not_mem {db : List (Int × Livro)} {k : Int} (v : Livro)
    (h : k ∉ db.map Prod.fst) :
    (dictSet db k v).map Prod.fst = db.map Prod.fst ++ [k] := by
  induction db with
  | nil => simp [dictSet]
  | cons p ps ih =>
    simp only [List.map_cons, List.mem_cons, not_or] at h
    have hk : ¬p.1 = k := fun hk => h.1 hk.symm
    simp [dictSet, hk, ih h.2]

theorem dictDel_sublist (db : List (Int × Livro)) (k : Int) :
    (dictDel db k).Sublist db := by
  induction db with
  | nil => simp [dictDel]
  | cons p ps ih =>
    by_cases hk : p.1 = k
    · simp only [dictDel, if_pos hk]
      exact List.sublist_cons_self p ps
    · simpa [dictDel, hk] using ih.cons₂ p

theorem dictSet_dictSet_self (db : List (Int × Livro)) (k : Int) (v : Livro) :
    dictSet (dictSet db k v) k v = dictSet db k v := by
  induction db with
  | nil => simp [dictSet]
  | cons p ps ih =>
    by_cases hk : p.1 = k
    · simp [dictSet, hk]
    · simp [dictSet, hk, ih]

/-! ### Counter evolution -/

theorem ultimo_atualizar (i : Int) (u : LivroUpdate) (s : AppState) :
    (atualizar_livro i u s).2.ultimo_id_livro = s.ultimo_id_livro := by
  unfold atualizar_livro
  cases dictGet s.db_livros i <;> rfl

theorem ultimo_deletar (i : Int) (s : AppState) :
    (deletar_livro i s).2.ultimo_id_livro = s.ultimo_id_livro := by
  unfold deletar_livro
  cases dictGet s.db_livros i <;> rfl

theorem ultimo_criar (c : LivroCreate) (s : AppState) :
    (criar_livro c s).2.ultimo_id_livro = s.ultimo_id_livro + 1 := rfl

/-! ### Store invariant: keys bounded by the counter, strictly sorted, and
each stored record's `id` field equal to its key -/

/-- Invariant of every reachable state. -/
def StoreInv (s : AppState) : Prop :=
  (∀ p ∈ s.db_livros, p.1 ≤ s.ultimo_id_livro) ∧
  List.Pairwise (· < ·) (s.db_livros.map Prod.fst) ∧
  (∀ p ∈ s.db_livros, p.2.id = p.1)

theorem storeInv_initial : StoreInv initialState := by
  refine ⟨?_, ?_, ?_⟩ <;> simp [initialState]

theorem storeInv_runOp {s : AppState} (hs : StoreInv s) (op : Op) :
    StoreInv (runOp s op) := by
  obtain ⟨hbound, hsorted, hid⟩ := hs
  cases op with
  | create c =>
    show StoreInv (criar_livro c s).2
    unfold StoreInv criar_livro
    dsimp only
    have hnot : s.ultimo_id_livro + 1 ∉ s.db_livros.map Prod.fst := by
      intro hmem
      obtain ⟨p, hp, hpk⟩ := List.mem_map.mp hmem
      have := hbound p hp
      omega
    refine ⟨?_, ?_, ?_⟩
    · intro p hp
      rcases mem_dictSet hp with rfl | hp
      · exact le_refl _
      · exact le_trans (hbound p hp) (by omega)
    · show List.Pairwise (· < ·)
        ((dictSet s.db_livros (s.ultimo_id_livro + 1) _).map Prod.fst)
      rw [map_fst_dictSet_of_not_mem _ hnot, List.pairwise_append]
      refine ⟨hsorted, List.pairwise_singleton _ _, ?_⟩
      intro a ha b hb
      obtain ⟨p, hp, hpk⟩ := List.mem_map.mp ha
      have := hbound p hp
      simp only [List.mem_singleton] at hb
      omega
    · intro p hp
      rcases mem_dictSet hp with rfl | hp
      · rfl
      · exact hid p hp
  | update i u =>
    show StoreInv (atualizar_livro i u s).2
    unfold atualizar_livro
    cases hget : dictGet s.db_livros i with
    | none => exact ⟨hbound, hsorted, hid⟩
    | some old =>
      have hkmem : i ∈ s.db_livros.map Prod.fst :=
        List.mem_map.mpr ⟨(i, old), mem_of_dictGet_eq_some hget, rfl⟩
      have hkb : i ≤ s.ultimo_id_livro := hbound _ (mem_of_dictGet_eq_some hget)
      refine ⟨?_, ?_, ?_⟩
      · intro p hp
        rcases mem_dictSet hp with rfl | hp
        · exact hkb
        · exact hbound p hp
      · show List.Pairwise (· < ·) ((dictSet s.db_livros i _).map Prod.fst)
        rw [map_fst_dictSet_of_mem _ hkmem]
        exact hsorted
      · intro p hp
        rcases mem_dictSet hp with rfl | hp
        · show (applyUpdate u old).id = i
          have : old.id = i := hid _ (mem_of_dictGet_eq_some hget)
          simpa [applyUpdate] using this
        · exact hid p hp
  | del i =>
    show StoreInv (deletar_livro i s).2
    unfold deletar_livro
    cases hget : dictGet s.db_livros i with
    | none => exact ⟨hbound, hsorted, hid⟩
    | some old =>
      refine ⟨?_, ?_, ?_⟩
      · intro p hp
        exact hbound p ((dictDel_sublist s.db_livros i).mem hp)
      · exact hsorted.sublist ((dictDel_sublist s.db_livros i).map Prod.fst)
      · intro p hp
        exact hid p ((dictDel_sublist s.db_livros i).mem hp)

theorem storeInv_runOps {s : AppState} (hs : StoreInv s) (ops : List Op) :
    StoreInv (runOps s ops) := by
  induction ops generalizing s with
  | nil => exact hs
  | cons op ops ih => exact ih (storeInv_runOp hs op)

/-! ### Ids returned by creates -/

theorem createdIds_eq (ops : List Op) : ∀ s : AppState,
    createdIds s ops
      = (List.range (countCreates ops)).map
          (fun i : Nat => s.ultimo_id_livro + 1 + (i : Int)) := by
  induction ops with
  | nil => intro s; simp [createdIds, countCreates]
  | cons op ops ih =>
    intro s
    cases op with
    | create c =>
      simp only [createdIds, countCreates]
      rw [ih (runOp s (.create c))]
      show (criar_livro c s).1.id :: _ = _
      have hcounter :
          (runOp s (.create c)).ultimo_id_livro = s.ultimo_id_livro + 1 := rfl
      rw [hcounter, List.range_succ_eq_map, List.map_cons, List.map_map]
      simp only [List.cons.injEq]
      refine ⟨?_, ?_⟩
      · show (s.ultimo_id_livro + 1 : Int) = s.ultimo_id_livro + 1 + ((0 : Nat) : Int)
        push_cast
        ring
      · apply List.map_congr_left
        intro i _
        show s.ultimo_id_livro + 1 + 1 + (i : Int)
          = s.ultimo_id_livro + 1 + ((Nat.succ i : Nat) : Int)
        push_cast
        ring
    | update i u =>
      simp only [createdIds, countCreates]
      rw [ih (runOp s (.update i u))]
      show _ = _
      simp only [runOp, ultimo_atualizar]
    | del i =>
      simp only [createdIds, countCreates]
      rw [ih (runOp s (.del i))]
      simp only [runOp, ultimo_deletar]

/-! ### Claim C3 -/

/-- Claim C3: starting from process start, over any sequence of creates
arbitrarily interleaved with updates and deletes, the ids returned by
successive creates are strictly increasing (hence never assigned twice,
even after the record holding one was deleted), and the first create
returns id 1. -/
theorem created_ids_strictly_increasing_from_one (ops : List Op) :
    List.Pairwise (· < ·) (createdIds initialState ops) ∧
    (createdIds initialState ops = [] ∨
      (createdIds initialState ops).head? = some 1) := by
  rw [createdIds_eq]
  constructor
  · refine List.Pairwise.map _ ?_ (List.pairwise_lt_range _)
    intro a b hab
    simp only [initialState]
    omega
  · cases hc : countCreates ops with
    | zero => left; simp [hc]
    | succ n =>
      right
      rw [List.range_succ_eq_map]
      simp [initialState]

/-! ### Claim C4 -/

/-- Claim C4: after any sequence of creates, updates and deletes, listing
with `skip = 0` and a `limit` at least the store size enumerates exactly
the stored records, in strictly ascending order of id (insertion order:
updates do not reorder entries and deleted ids are never re-inserted). -/
theorem listar_enumerates_store_in_id_order (ops : List Op) (n : Int)
    (hn : ((runOps initialState ops).db_livros.length : Int) ≤ n) :
    listar_livros (runOps initialState ops) 0 n
      = (runOps initialState ops).db_livros.map Prod.snd ∧
    List.Pairwise (· < ·)
      ((listar_livros (runOps initialState ops) 0 n).map Livro.id) := by
  obtain ⟨-, hsorted, hid⟩ := storeInv_runOps storeInv_initial ops
  set s := runOps initialState ops with hs
  have hmain : listar_livros s 0 n = s.db_livros.map Prod.snd := by
    unfold listar_livros
    by_cases hn0 : n ≤ 0
    · have hlen : s.db_livros.length = 0 := by omega
      have hnil : s.db_livros = [] := List.length_eq_zero.mp hlen
      simp [hnil]
    · simp only [if_neg hn0]
      norm_num
      omega
  refine ⟨hmain, ?_⟩
  rw [hmain, List.map_map]
  have hfst : s.db_livros.map (Livro.id ∘ Prod.snd) = s.db_livros.map Prod.fst :=
    List.map_congr_left (fun p hp => hid p hp)
  rw [hfst]
  exact hsorted

/-- Concrete instance of the listing claim: two creates, `limit = 5`. -/
theorem listar_enumerates_store_in_id_order_witness :
    (((runOps initialState
        [Op.create ⟨"Dune", "Herbert", none, none⟩,
         Op.create ⟨"Foundation", "Asimov", none, none⟩]).db_livros.length : Int) ≤ 5) ∧
    (listar_livros (runOps initialState
        [Op.create ⟨"Dune", "Herbert", none, none⟩,
         Op.create ⟨"Foundation", "Asimov", none, none⟩]) 0 5
      = (runOps initialState
        [Op.create ⟨"Dune", "Herbert", none, none⟩,
         Op.create ⟨"Foundation", "Asimov", none, none⟩]).db_livros.map Prod.snd ∧
    List.Pairwise (· < ·)
      ((listar_livros (runOps initialState
        [Op.create ⟨"Dune", "Herbert", none, none⟩,
         Op.create ⟨"Foundation", "Asimov", none, none⟩]) 0 5).map Livro.id)) :=
  ⟨by decide,
    listar_enumerates_store_in_id_order
      [Op.create ⟨"Dune", "Herbert", none, none⟩,
       Op.create ⟨"Foundation", "Asimov", none, none⟩] 5 (by decide)⟩

/-! ### Claim C1 -/

/-- An operation that never explicitly sends JSON `null` for `titulo` or
`autor` (creates and deletes trivially qualify; an update qualifies when
those two fields are either omitted or set to an actual value). -/
def keepsRequiredFields : Op → Bool
  | .update _ u => u.titulo != some none && u.autor != some none
  | _ => true

theorem requiredPresent_runOp {s : AppState}
    (hs : ∀ p ∈ s.db_livros, p.2.titulo.isSome ∧ p.2.autor.isSome)
    {op : Op} (hop : keepsRequiredFields op = true) :
    ∀ p ∈ (runOp s op).db_livros, p.2.titulo.isSome ∧ p.2.autor.isSome := by
  cases op with
  | create c =>
    intro p hp
    simp only [runOp, criar_livro] at hp
    rcases mem_dictSet hp with rfl | hp
    · exact ⟨rfl, rfl⟩
    · exact hs p hp
  | update i u =>
    simp only [keepsRequiredFields, Bool.and_eq_true, bne_iff_ne, ne_eq] at hop
    cases hget : dictGet s.db_livros i with
    | none =>
      intro p hp
      simp only [runOp, atualizar_livro, hget] at hp
      exact hs p hp
    | some old =>
      intro p hp
      simp only [runOp, atualizar_livro, hget] at hp
      rcases mem_dictSet hp with rfl | hp
      · obtain ⟨ht, ha⟩ := hs _ (mem_of_dictGet_eq_some hget)
        constructor
        · show (applyUpdate u old).titulo.isSome
          cases hut : u.titulo with
          | none => simpa [applyUpdate, hut] using ht
          | some v =>
            cases v with
            | none => exact absurd hut hop.1
            | some t => simp [applyUpdate, hut]
        · show (applyUpdate u old).autor.isSome
          cases hua : u.autor with
          | none => simpa [applyUpdate, hua] using ha
          | some v =>
            cases v with
            | none => exact absurd hua hop.2
            | some a => simp [applyUpdate, hua]
      · exact hs p hp
  | del i =>
    cases hget : dictGet s.db_livros i with
    | none =>
      intro p hp
      simp only [runOp, deletar_livro, hget] at hp
      exact hs p hp
    | some old =>
      intro p hp
      simp only [runOp, deletar_livro, hget] at hp
      exact hs p ((dictDel_sublist s.db_livros i).mem hp)

theorem requiredPresent_runOps {s : AppState}
    (hs : ∀ p ∈ s.db_livros, p.2.titulo.isSome ∧ p.2.autor.isSome)
    {ops : List Op} (hops : ∀ op ∈ ops, keepsRequiredFields op = true) :
    ∀ p ∈ (runOps s ops).db_livros, p.2.titulo.isSome ∧ p.2.autor.isSome := by
  induction ops generalizing s with
  | nil => exact hs
  | cons op ops ih =>
    exact ih (requiredPresent_runOp hs (hops op (List.mem_cons_self op ops)))
      (fun o ho => hops o (List.mem_cons_of_mem op ho))

/-- Claim C1 is false as stated: a partial-update request explicitly
setting `titulo` to JSON `null` is kept by `exclude_unset=True` and written
through `setattr`, leaving the stored record with no title. -/
theorem update_null_clears_titulo :
    ∃ p ∈ (runOps initialState
        [Op.create ⟨"Dune", "Herbert", none, none⟩,
         Op.update 1 ⟨some none, none, none, none⟩]).db_livros,
      p.2.titulo = none := by decide

/-- Claim C1 (amended): after any sequence of creates, updates and deletes
in which no update explicitly sets `titulo` or `autor` to `null`, every
stored record has both `titulo` and `autor` present. -/
theorem stored_records_keep_required_fields (ops : List Op)
    (h : ∀ op ∈ ops, keepsRequiredFields op = true) :
    ∀ p ∈ (runOps initialState ops).db_livros,
      p.2.titulo.isSome ∧ p.2.autor.isSome :=
  requiredPresent_runOps (by simp [initialState]) h

/-- Concrete instance of the amended claim C1: a create followed by a
genre-only update keeps `titulo` and `autor` present. -/
theorem stored_records_keep_required_fields_witness :
    (∀ op ∈ [Op.create ⟨"Dune", "Herbert", none, none⟩,
             Op.update 1 ⟨none, none, none, some (some "Sci-Fi")⟩],
        keepsRequiredFields op = true) ∧
    (∀ p ∈ (runOps initialState
        [Op.create ⟨"Dune", "Herbert", none, none⟩,
         Op.update 1 ⟨none, none, none, some (some "Sci-Fi")⟩]).db_livros,
      p.2.titulo.isSome ∧ p.2.autor.isSome) :=
  ⟨by decide,
    stored_records_keep_required_fields
      [Op.create ⟨"Dune", "Herbert", none, none⟩,
       Op.update 1 ⟨none, none, none, some (some "Sci-Fi")⟩] (by decide)⟩

/-! ### Claim C2 -/

/-- Claim C2 is false as stated: a client CAN clear an optional field.
Explicitly sending `genero: null` on a record whose genre is "Sci-Fi"
leaves the stored record with no genre. -/
theorem update_null_clears_genero :
    dictGet (runOps initialState
        [Op.create ⟨"Dune", "Herbert", none, some "Sci-Fi"⟩,
         Op.update 1 ⟨none, none, none, some none⟩]).db_livros 1
      = some ⟨1, some "Dune", some "Herbert", none, none⟩ := by decide

/-- Claim C2 (amended): on an update of an existing record, a field
omitted from the request body is left untouched, while a field explicitly
present in the body — including one explicitly set to `null` — is written
to the stored record; so a client can clear an optional field such as
genre by sending an explicit `null`. -/
theorem update_writes_explicit_null_and_keeps_unset (s : AppState)
    (i : Int) (u : LivroUpdate) (old : Livro)
    (h : dictGet s.db_livros i = some old) :
    ∃ r, (atualizar_livro i u s).1 = .ok r ∧
      dictGet (atualizar_livro i u s).2.db_livros i = some r ∧
      (u.titulo = none → r.titulo = old.titulo) ∧
      (∀ v, u.titulo = some v → r.titulo = v) ∧
      (u.autor = none → r.autor = old.autor) ∧
      (∀ v, u.autor = some v → r.autor = v) ∧
      (u.ano_publicacao = none → r.ano_publicacao = old.ano_publicacao) ∧
      (∀ v, u.ano_publicacao = some v → r.ano_publicacao = v) ∧
      (u.genero = none → r.genero = old.genero) ∧
      (∀ v, u.genero = some v → r.genero = v) := by
  refine ⟨applyUpdate u old, ?_, ?_, ?_, ?_, ?_, ?_, ?_, ?_, ?_, ?_⟩
  · simp [atualizar_livro, h]
  · simp [atualizar_livro, h, dictGet_dictSet_self]
  · intro hu; simp [applyUpdate, hu]
  · intro v hu; simp [applyUpdate, hu]
  · intro hu; simp [applyUpdate, hu]
  · intro v hu; simp [applyUpdate, hu]
  · intro hu; simp [applyUpdate, hu]
  · intro v hu; simp [applyUpdate, hu]
  · intro hu; simp [applyUpdate, hu]
  · intro v hu; simp [applyUpdate, hu]

/-- Concrete instance of the amended claim C2, clearing a genre with an
explicit `null`. -/
theorem update_writes_explicit_null_and_keeps_unset_witness :
    dictGet (criar_livro ⟨"Dune", "Herbert", none, some "Sci-Fi"⟩
        initialState).2.db_livros 1
      = some ⟨1, some "Dune", some "Herbert", none, some "Sci-Fi"⟩ ∧
    (∃ r, (atualizar_livro 1 ⟨none, none, none, some none⟩
        (criar_livro ⟨"Dune", "Herbert", none, some "Sci-Fi"⟩
          initialState).2).1 = .ok r ∧
      dictGet (atualizar_livro 1 ⟨none, none, none, some none⟩
        (criar_livro ⟨"Dune", "Herbert", none, some "Sci-Fi"⟩
          initialState).2).2.db_livros 1 = some r ∧
      ((⟨none, none, none, some none⟩ : LivroUpdate).titulo = none →
        r.titulo = (⟨1, some "Dune", some "Herbert", none,
          some "Sci-Fi"⟩ : Livro).titulo) ∧
      (∀ v, (⟨none, none, none, some none⟩ : LivroUpdate).titulo = some v →
        r.titulo = v) ∧
      ((⟨none, none, none, some none⟩ : LivroUpdate).autor = none →
        r.autor = (⟨1, some "Dune", some "Herbert", none,
          some "Sci-Fi"⟩ : Livro).autor) ∧
      (∀ v, (⟨none, none, none, some none⟩ : LivroUpdate).autor = some v →
        r.autor = v) ∧
      ((⟨none, none, none, some none⟩ : LivroUpdate).ano_publicacao = none →
        r.ano_publicacao = (⟨1, some "Dune", some "Herbert", none,
          some "Sci-Fi"⟩ : Livro).ano_publicacao) ∧
      (∀ v, (⟨none, none, none, some none⟩ : LivroUpdate).ano_publicacao
          = some v → r.ano_publicacao = v) ∧
      ((⟨none, none, none, some none⟩ : LivroUpdate).genero = none →
        r.genero = (⟨1, some "Dune", some "Herbert", none,
          some "Sci-Fi"⟩ : Livro).genero) ∧
      (∀ v, (⟨none, none, none, some none⟩ : LivroUpdate).genero = some v →
        r.genero = v)) :=
  ⟨by decide,
    update_writes_explicit_null_and_keeps_unset
      (criar_livro ⟨"Dune", "Herbert", none, some "Sci-Fi"⟩ initialState).2
      1 ⟨none, none, none, some none⟩
      ⟨1, some "Dune", some "Herbert", none, some "Sci-Fi"⟩ (by decide)⟩

/-! ### Claims C5 and C7 -/

theorem handleCreate_error_of_missing (b : RawCreateBody) (s : AppState)
    (h : b.titulo = none ∨ b.autor = none) :
    (∃ e, (handleCreate b s).1 = .error e) ∧ (handleCreate b s).2 = s := by
  obtain ⟨bt, ba, bp, bg⟩ := b
  rcases h with h | h
  · cases h
    exact ⟨⟨_, rfl⟩, rfl⟩
  · cases h
    cases bt with
    | none => exact ⟨⟨_, rfl⟩, rfl⟩
    | some t => exact ⟨⟨_, rfl⟩, rfl⟩

/-- Claim C5: a failing request mutates nothing.  A get, update or delete
of an absent id reports 404 and leaves the store exactly as it was, and a
create whose body fails validation (missing `titulo` or `autor`) reports a
validation error before any store mutation. -/
theorem failed_requests_leave_store_unchanged (s : AppState) (i : Int)
    (u : LivroUpdate) (b : RawCreateBody)
    (hi : dictGet s.db_livros i = none)
    (hb : b.titulo = none ∨ b.autor = none) :
    (∃ e, (obter_livro i s).1 = .error e) ∧ (obter_livro i s).2 = s ∧
    (∃ e, (atualizar_livro i u s).1 = .error e) ∧
    (atualizar_livro i u s).2 = s ∧
    (∃ e, (deletar_livro i s).1 = .error e) ∧ (deletar_livro i s).2 = s ∧
    (∃ e, (handleCreate b s).1 = .error e) ∧ (handleCreate b s).2 = s := by
  obtain ⟨hc1, hc2⟩ := handleCreate_error_of_missing b s hb
  refine ⟨⟨.notFound s!"Livro com id {i} não encontrado", ?_⟩, ?_,
    ⟨.notFound s!"Livro com id {i} não encontrado", ?_⟩, ?_,
    ⟨.notFound s!"Livro com id {i} não encontrado", ?_⟩, ?_, hc1, hc2⟩ <;>
    simp [obter_livro, atualizar_livro, deletar_livro, hi]

/-- Concrete instance of claim C5: id 1 absent from the empty store, and a
creation body missing `titulo`. -/
theorem failed_requests_leave_store_unchanged_witness :
    dictGet initialState.db_livros 1 = none ∧
    ((⟨none, some "Herbert", none, none⟩ : RawCreateBody).titulo = none ∨
      (⟨none, some "Herbert", none, none⟩ : RawCreateBody).autor = none) ∧
    (atualizar_livro 1 ⟨none, none, none, none⟩ initialState).2
      = initialState ∧
    (deletar_livro 1 initialState).2 = initialState ∧
    (handleCreate ⟨none, some "Herbert", none, none⟩ initialState).2
      = initialState := by
  have h := failed_requests_leave_store_unchanged initialState 1
    ⟨none, none, none, none⟩ ⟨none, some "Herbert", none, none⟩
    (by decide) (Or.inl rfl)
  exact ⟨by decide, Or.inl rfl, h.2.2.2.1, h.2.2.2.2.2.1, h.2.2.2.2.2.2.2⟩

/-- Claim C7 is false as stated: pydantic's `Field(...)` only requires the
field to be present, so an empty-string `titulo` passes validation, the
create succeeds and the record is stored with an empty title. -/
theorem empty_titulo_create_accepted :
    (handleCreate ⟨some "", some "Herbert", none, none⟩ initialState).1
      = .ok ⟨1, some "", some "Herbert", none, none⟩ ∧
    (handleCreate ⟨some "", some "Herbert", none, none⟩
        initialState).2.db_livros
      = [(1, ⟨1, some "", some "Herbert", none, none⟩)] := ⟨rfl, rfl⟩

/-- Claim C7 (amended): a create request missing `titulo` or `autor` fails
with a validation error and stores nothing; empty text is accepted (only
presence is checked). -/
theorem create_rejects_missing_required_fields (b : RawCreateBody)
    (s : AppState) (h : b.titulo = none ∨ b.autor = none) :
    (∃ e, (handleCreate b s).1 = .error e) ∧ (handleCreate b s).2 = s :=
  handleCreate_error_of_missing b s h

/-- Concrete instance of the amended claim C7: a body missing `autor`. -/
theorem create_rejects_missing_required_fields_witness :
    ((⟨some "Dune", none, none, none⟩ : RawCreateBody).titulo = none ∨
      (⟨some "Dune", none, none, none⟩ : RawCreateBody).autor = none) ∧
    ((∃ e, (handleCreate ⟨some "Dune", none, none, none⟩ initialState).1
        = .error e) ∧
      (handleCreate ⟨some "Dune", none, none, none⟩ initialState).2
        = initialState) :=
  ⟨Or.inr rfl,
    create_rejects_missing_required_fields
      ⟨some "Dune", none, none, none⟩ initialState (Or.inr rfl)⟩

/-! ### Claim C6 -/

/-- Number of fields explicitly present in an update body. -/
def countSetFields (u : LivroUpdate) : Nat :=
  (if u.titulo.isSome then 1 else 0) + (if u.autor.isSome then 1 else 0) +
  (if u.ano_publicacao.isSome then 1 else 0) +
  (if u.genero.isSome then 1 else 0)

/-- Claim C6: updating an existing record with a body that supplies exactly
one field succeeds, returns the updated record (which is exactly what gets
stored), changes only the supplied field and leaves every other field —
including `id` — unchanged. -/
theorem single_field_update_frame (s : AppState) (i : Int)
    (u : LivroUpdate) (old : Livro)
    (hget : dictGet s.db_livros i = some old)
    (hone : countSetFields u = 1) :
    ∃ r, atualizar_livro i u s
        = (.ok r, ⟨dictSet s.db_livros i r, s.ultimo_id_livro⟩) ∧
      r.id = old.id ∧
      (u.titulo = none → r.titulo = old.titulo) ∧
      (∀ v, u.titulo = some v → r.titulo = v) ∧
      (u.autor = none → r.autor = old.autor) ∧
      (∀ v, u.autor = some v → r.autor = v) ∧
      (u.ano_publicacao = none → r.ano_publicacao = old.ano_publicacao) ∧
      (∀ v, u.ano_publicacao = some v → r.ano_publicacao = v) ∧
      (u.genero = none → r.genero = old.genero) ∧
      (∀ v, u.genero = some v → r.genero = v) := by
  refine ⟨applyUpdate u old, ?_, rfl, ?_, ?_, ?_, ?_, ?_, ?_, ?_, ?_⟩
  · simp [atualizar_livro, hget]
  · intro hu; simp [applyUpdate, hu]
  · intro v hu; simp [applyUpdate, hu]
  · intro hu; simp [applyUpdate, hu]
  · intro v hu; simp [applyUpdate, hu]
  · intro hu; simp [applyUpdate, hu]
  · intro v hu; simp [applyUpdate, hu]
  · intro hu; simp [applyUpdate, hu]
  · intro v hu; simp [applyUpdate, hu]

/-- Concrete instance of claim C6: a genre-only update of record 1. -/
theorem single_field_update_frame_witness :
    dictGet (criar_livro ⟨"Dune", "Herbert", none, none⟩
        initialState).2.db_livros 1
      = some ⟨1, some "Dune", some "Herbert", none, none⟩ ∧
    countSetFields ⟨none, none, none, some (some "Sci-Fi")⟩ = 1 ∧
    (∃ r, atualizar_livro 1 ⟨none, none, none, some (some "Sci-Fi")⟩
        (criar_livro ⟨"Dune", "Herbert", none, none⟩ initialState).2
        = (.ok r,
          ⟨dictSet (criar_livro ⟨"Dune", "Herbert", none, none⟩
              initialState).2.db_livros 1 r,
           (criar_livro ⟨"Dune", "Herbert", none, none⟩
              initialState).2.ultimo_id_livro⟩) ∧
      r.id = (⟨1, some "Dune", some "Herbert", none, none⟩ : Livro).id ∧
      ((⟨none, none, none, some (some "Sci-Fi")⟩ : LivroUpdate).titulo = none →
        r.titulo = (⟨1, some "Dune", some "Herbert", none,
          none⟩ : Livro).titulo) ∧
      (∀ v, (⟨none, none, none,
          some (some "Sci-Fi")⟩ : LivroUpdate).titulo = some v →
        r.titulo = v) ∧
      ((⟨none, none, none, some (some "Sci-Fi")⟩ : LivroUpdate).autor = none →
        r.autor = (⟨1, some "Dune", some "Herbert", none,
          none⟩ : Livro).autor) ∧
      (∀ v, (⟨none, none, none,
          some (some "Sci-Fi")⟩ : LivroUpdate).autor = some v →
        r.autor = v) ∧
      ((⟨none, none, none,
          some (some "Sci-Fi")⟩ : LivroUpdate).ano_publicacao = none →
        r.ano_publicacao = (⟨1, some "Dune", some "Herbert", none,
          none⟩ : Livro).ano_publicacao) ∧
      (∀ v, (⟨none, none, none,
          some (some "Sci-Fi")⟩ : LivroUpdate).ano_publicacao = some v →
        r.ano_publicacao = v) ∧
      ((⟨none, none, none, some (some "Sci-Fi")⟩ : LivroUpdate).genero = none →
        r.genero = (⟨1, some "Dune", some "Herbert", none,
          none⟩ : Livro).genero) ∧
      (∀ v, (⟨none, none, none,
          some (some "Sci-Fi")⟩ : LivroUpdate).genero = some v →
        r.genero = v)) :=
  ⟨by decide, by decide,
    single_field_update_frame
      (criar_livro ⟨"Dune", "Herbert", none, none⟩ initialState).2 1
      ⟨none, none, none, some (some "Sci-Fi")⟩
      ⟨1, some "Dune", some "Herbert", none, none⟩ (by decide) (by decide)⟩

/-! ### Claim C8 -/

/-- Claim C8: listing with `limit <= 0` returns exactly what the default
`limit = 10` returns, and listing with `skip < 0` returns exactly what
`skip = 0` returns; `listar_livros` is a total function (it always
succeeds, possibly with an empty list). -/
theorem listar_coerces_skip_and_limit (s : AppState) (skip limit : Int) :
    (limit ≤ 0 → listar_livros s skip limit = listar_livros s skip 10) ∧
    (skip < 0 → listar_livros s skip limit = listar_livros s 0 limit) := by
  constructor
  · intro h
    unfold listar_livros
    simp only [if_pos h]
    norm_num
  · intro h
    unfold listar_livros
    simp only [if_pos h]
    norm_num

/-- Concrete instance of claim C8, on a one-record store with
`skip = -3`, `limit = -2`. -/
theorem listar_coerces_skip_and_limit_witness :
    ((-2 : Int) ≤ 0 ∧ (-3 : Int) < 0) ∧
    listar_livros (criar_livro ⟨"Dune", "Herbert", none, none⟩
        initialState).2 (-3) (-2)
      = listar_livros (criar_livro ⟨"Dune", "Herbert", none, none⟩
        initialState).2 (-3) 10 ∧
    listar_livros (criar_livro ⟨"Dune", "Herbert", none, none⟩
        initialState).2 (-3) (-2)
      = listar_livros (criar_livro ⟨"Dune", "Herbert", none, none⟩
        initialState).2 0 (-2) :=
  ⟨⟨by decide, by decide⟩,
    (listar_coerces_skip_and_limit
      (criar_livro ⟨"Dune", "Herbert", none, none⟩ initialState).2
      (-3) (-2)).1 (by decide),
    (listar_coerces_skip_and_limit
      (criar_livro ⟨"Dune", "Herbert", none, none⟩ initialState).2
      (-3) (-2)).2 (by decide)⟩

/-! ### Claim C9 -/

/-- Claim C9: round-trip.  Creating from a valid body and then getting the
returned id yields exactly the created record: the input's `titulo` and
`autor`, the input's optional fields (absent when omitted), plus the
assigned id `ultimo_id_livro + 1`. -/
theorem create_then_get_roundtrip (c : LivroCreate) (s : AppState) :
    (obter_livro (criar_livro c s).1.id (criar_livro c s).2).1
      = .ok (criar_livro c s).1 ∧
    (criar_livro c s).1.titulo = some c.titulo ∧
    (criar_livro c s).1.autor = some c.autor ∧
    (criar_livro c s).1.ano_publicacao = c.ano_publicacao ∧
    (criar_livro c s).1.genero = c.genero ∧
    (criar_livro c s).1.id = s.ultimo_id_livro + 1 := by
  refine ⟨?_, rfl, rfl, rfl, rfl, rfl⟩
  simp [obter_livro, criar_livro, dictGet_dictSet_self]

/-! ### Claim C10 -/

theorem applyUpdate_applyUpdate (u : LivroUpdate) (l : Livro) :
    applyUpdate u (applyUpdate u l) = applyUpdate u l := by
  obtain ⟨t, a, y, g⟩ := u
  cases t <;> cases a <;> cases y <;> cases g <;> rfl

/-- Claim C10: update is idempotent.  Applying the same update body to the
same id twice in succession produces the same response and the same store
state as applying it once. -/
theorem update_idempotent (s : AppState) (i : Int) (u : LivroUpdate)
    (old : Livro) (h : dictGet s.db_livros i = some old) :
    atualizar_livro i u (atualizar_livro i u s).2 = atualizar_livro i u s := by
  simp only [atualizar_livro, h, dictGet_dictSet_self]
  rw [applyUpdate_applyUpdate, dictSet_dictSet_self]

/-- Concrete instance of claim C10: repeating a genre update of record 1. -/
theorem update_idempotent_witness :
    dictGet (criar_livro ⟨"Dune", "Herbert", none, none⟩
        initialState).2.db_livros 1
      = some ⟨1, some "Dune", some "Herbert", none, none⟩ ∧
    atualizar_livro 1 ⟨none, none, none, some (some "Sci-Fi")⟩
        (atualizar_livro 1 ⟨none, none, none, some (some "Sci-Fi")⟩
          (criar_livro ⟨"Dune", "Herbert", none, none⟩ initialState).2).2
      = atualizar_livro 1 ⟨none, none, none, some (some "Sci-Fi")⟩
          (criar_livro ⟨"Dune", "Herbert", none, none⟩ initialState).2 :=
  ⟨by decide,
    update_idempotent
      (criar_livro ⟨"Dune", "Herbert", none, none⟩ initialState).2 1
      ⟨none, none, none, some (some "Sci-Fi")⟩
      ⟨1, some "Dune", some "Herbert", none, none⟩ (by decide)⟩
